import Mathlib

/-!
# RearViewCamera: capture device manager and frame renderer

A shallow embedding of `VideoDevice.cpp` and `FrameRenderer.cpp`.

* Kernel and library calls (`stat`, `open`, `close`, `ioctl`, `select`, `mmap`,
  `munmap`, `calloc`, `free`) are answered by an explicit environment record that is
  passed to every operation; each operation returns, next to its C result and the new
  object state, the list of calls it issued, in order.
* Pointers and file descriptors are integers (`nullptr` is `0`, `MAP_FAILED` and the
  failed descriptor are `-1`).
* Loops that wait on the driver carry fuel.
-/

namespace RearViewCamera

/-! ## Constants -/

/-- Modelled from the spec: the macro `ERROR_LOCAL` of the missing header `util.h`, the
"failure" half of the success/failure signal. `open_device` compares the value returned by
`v4l2_open` (which returns `ERROR_LOCAL`) with `-1`, so the value is `-1`. -/
def ERROR_LOCAL : Int := -1

/-- Modelled from the spec: the macro `SUCCESS_LOCAL` of the missing header `util.h`, the
"success" half of the success/failure signal. -/
def SUCCESS_LOCAL : Int := 0

/-- Modelled from the spec: the helper `errnoexit` of the missing `util` unit, which logs
the failed call with `errno` and yields the failure signal ("Returns SUCCESS_LOCAL if no
errors, otherwise ERROR_LOCAL" on every function that returns it). -/
def errnoexit (_call : String) : Int := ERROR_LOCAL

/-- The errno value `EINTR` of `errno.h`. -/
def EINTR : Int := 4
/-- The errno value `EIO` of `errno.h`. -/
def EIO : Int := 5
/-- The errno value `EAGAIN` of `errno.h`. -/
def EAGAIN : Int := 11
/-- The errno value `EINVAL` of `errno.h`. -/
def EINVAL : Int := 22

/-- The null pointer. -/
def NULL : Int := 0

/-- The failure value of `mmap`, `(void* ) -1`. -/
def MAP_FAILED : Int := -1

/-- The macro `v4l2_fourcc(a, b, c, d)` of `linux/videodev2.h`. -/
def v4l2_fourcc (a b c d : Char) : Nat :=
  a.toNat ||| (b.toNat <<< 8) ||| (c.toNat <<< 16) ||| (d.toNat <<< 24)

def V4L2_PIX_FMT_YUYV : Nat := v4l2_fourcc 'Y' 'U' 'Y' 'V'
def V4L2_PIX_FMT_UYVY : Nat := v4l2_fourcc 'U' 'Y' 'V' 'Y'
def V4L2_PIX_FMT_RGB565 : Nat := v4l2_fourcc 'R' 'G' 'B' 'P'
def V4L2_PIX_FMT_RGBA32 : Nat := v4l2_fourcc 'A' 'B' '2' '4'

def V4L2_CAP_VIDEO_CAPTURE : Nat := 0x00000001
def V4L2_CAP_STREAMING : Nat := 0x04000000
def V4L2_STD_NTSC : Nat := 0x0000B000
def V4L2_STD_PAL : Nat := 0x000000FF
def V4L2_FIELD_INTERLACED : Nat := 4

/-- The value `WINDOW_FORMAT_RGBA_8888` of the NDK header `native_window.h`. -/
def WINDOW_FORMAT_RGBA_8888 : Int := 1
/-- The value `WINDOW_FORMAT_RGB_565` of the NDK header `native_window.h`. -/
def WINDOW_FORMAT_RGB_565 : Int := 4

/-! ## Data model -/

/-- Modelled from the spec: the enumeration of adapter families in the missing header
`VideoDevice.h` (the closed set of known adapter families and the "no recognized device"
result). -/
inductive DeviceType where
  | UTV007
  | EMPIA
  | STK1160
  | SOMAGIC
  | NO_DEVICE
  deriving DecidableEq, Repr

/-- Modelled from the spec: the pixel-encoding selector of the missing header
`VideoDevice.h` (two packed 4:2:2 orderings, one 16-bit RGB, one 32-bit RGBA); `other`
stands for every value of the underlying integer that is none of the four enumerators. -/
inductive PixelFormat where
  | YUYV
  | UYVY
  | RGB565
  | RGBA8888
  | other (raw : Nat)
  deriving DecidableEq, Repr

/-- Modelled from the spec: the video-standard selector of the missing header
`VideoDevice.h`; `other` stands for every value that is neither enumerator. -/
inductive VideoStandard where
  | NTSC
  | PAL
  | other (raw : Nat)
  deriving DecidableEq, Repr

/-- Modelled from the spec: `DeviceSettings` of the missing header `VideoDevice.h`: device
node path, frame width, frame height, pixel-encoding selector, video-standard selector,
requested buffer count. -/
structure DeviceSettings where
  device_name : String
  frame_width : Int
  frame_height : Int
  color_format : PixelFormat
  standard_id : VideoStandard
  num_buffers : Int
  deriving DecidableEq, Repr

/-- Modelled from the spec: `CaptureBuffer` of the missing header `VideoDevice.h`, a raw
byte span (`start`) plus its `length`. -/
structure CaptureBuffer where
  start : Int
  length : Nat
  deriving DecidableEq, Repr

/-- Modelled from the spec: `sizeof(CaptureBuffer)`, a pointer plus a length. -/
def sizeof_CaptureBuffer : Int := 8

/-- The ioctl requests issued by the capture device manager, with the request fields the
code fills in. -/
inductive Ioctl where
  | VIDIOC_QUERYCAP
  | VIDIOC_S_STD (std_id : Nat)
  | VIDIOC_CROPCAP
  | VIDIOC_S_CROP
  | VIDIOC_S_FMT (width height : Int) (pixelformat field : Nat)
  | VIDIOC_REQBUFS (count : Nat)
  | VIDIOC_QUERYBUF (index : Nat)
  | VIDIOC_QBUF (index : Nat)
  | VIDIOC_DQBUF
  | VIDIOC_STREAMON
  | VIDIOC_STREAMOFF
  deriving DecidableEq, Repr

/-- One kernel or library call issued by the program. -/
inductive Event where
  | stat (path : String)
  | open (path : String)
  | close (fd : Int)
  | ioctl (fd : Int) (req : Ioctl)
  | calloc (count : Nat)
  | free (ptr : Int)
  | mmap (fd : Int) (length offset : Nat)
  | munmap (start : Int) (length : Nat)
  | select (fd : Int)
  | sleep
  deriving DecidableEq, Repr

/-- The outcome of one `xioctl`: `-1` with an errno, or `0` with the data the driver wrote
into the request structure. -/
inductive Reply (α : Type) where
  | fail (errno : Int)
  | ok (val : α)
  deriving DecidableEq, Repr

/-- The fields of `struct v4l2_capability` that the code reads. -/
structure v4l2_capability where
  driver : List Char
  capabilities : Nat
  deriving DecidableEq, Repr

/-! ## `v4l2_open`, `v4l2_close`, `detect_device` -/

/-- How the file system answers `v4l2_open`: whether `stat` succeeds, whether the node is
a character device, and what `open` returns (`-1` on failure). -/
structure OpenEnv where
  stat_ok : Bool
  is_chr : Bool
  open_fd : Int
  deriving DecidableEq, Repr

/-- `VideoDevice::v4l2_open`. -/
def v4l2_open (k : OpenEnv) (dev_name : String) : Int × List Event :=
  if k.stat_ok = false then (ERROR_LOCAL, [Event.stat dev_name])
  else if k.is_chr = false then (ERROR_LOCAL, [Event.stat dev_name])
  else if k.open_fd = -1 then (ERROR_LOCAL, [Event.stat dev_name, Event.open dev_name])
  else (k.open_fd, [Event.stat dev_name, Event.open dev_name])

/-- `VideoDevice::v4l2_close`; `close_ret` is what `close(fd)` returns. The assignment
`fd = -1` changes only the by-value parameter, so nothing but the result and the call
leaves the function. -/
def v4l2_close (close_ret : Int) (fd : Int) : Int × List Event :=
  if fd ≠ -1 then
    (if close_ret = -1 then errnoexit "close" else SUCCESS_LOCAL, [Event.close fd])
  else (SUCCESS_LOCAL, [])

/-- The C library `strncmp` on NUL-terminated strings, given as the characters before the
terminator: reading at or past the end yields NUL. -/
def strncmp : List Char → List Char → Nat → Int
  | _, _, 0 => 0
  | a, b, n + 1 =>
    let ca := a.headD (Char.ofNat 0)
    let cb := b.headD (Char.ofNat 0)
    if ca ≠ cb then (ca.toNat : Int) - (cb.toNat : Int)
    else if ca = Char.ofNat 0 then 0
    else strncmp a.tail b.tail n

/-- How the system answers `detect_device`. -/
structure ProbeEnv where
  file : OpenEnv
  querycap : Reply v4l2_capability
  close_ret : Int
  deriving DecidableEq, Repr

/-- `VideoDevice::detect_device`. -/
def detect_device (k : ProbeEnv) (dev_name : String) : DeviceType × List Event :=
  let o := v4l2_open k.file dev_name
  let fd := o.1
  if fd = -1 then (DeviceType.NO_DEVICE, o.2)
  else
    match k.querycap with
    | Reply.fail _ => (DeviceType.NO_DEVICE, o.2 ++ [Event.ioctl fd Ioctl.VIDIOC_QUERYCAP])
    | Reply.ok cap =>
      let dev_type :=
        if strncmp cap.driver ['u', 's', 'b', 't', 'v'] 5 = 0 then DeviceType.UTV007
        else if strncmp cap.driver ['e', 'm', '2', '8', 'x', 'x'] 6 = 0 then DeviceType.EMPIA
        else if strncmp cap.driver ['s', 't', 'k', '1', '1', '6', '0'] 7 = 0 then
          DeviceType.STK1160
        else if strncmp cap.driver ['s', 'm', 'i', '2', '0', '2', '1'] 7 = 0 then
          DeviceType.SOMAGIC
        else DeviceType.NO_DEVICE
      let c := v4l2_close k.close_ret fd
      let events := o.2 ++ [Event.ioctl fd Ioctl.VIDIOC_QUERYCAP] ++ c.2
      if c.1 ≠ SUCCESS_LOCAL then (DeviceType.NO_DEVICE, events)
      else (dev_type, events)

/-- Ordered fixed-prefix matching of a driver string, as the specification words it. -/
def classifyByPrefix (s : List Char) : DeviceType :=
  if ['u', 's', 'b', 't', 'v'] <+: s then DeviceType.UTV007
  else if ['e', 'm', '2', '8', 'x', 'x'] <+: s then DeviceType.EMPIA
  else if ['s', 't', 'k', '1', '1', '6', '0'] <+: s then DeviceType.STK1160
  else if ['s', 'm', 'i', '2', '0', '2', '1'] <+: s then DeviceType.SOMAGIC
  else DeviceType.NO_DEVICE

/-! ## The capture device manager -/

/-- The members of `VideoDevice`. `frame_buffers` is the pointer (`0` is `nullptr`) and
`pool` the contents of the array it points to. -/
structure VideoDevice where
  device_sets : DeviceSettings
  buffer_count : Nat
  frame_buffers : Int
  pool : List CaptureBuffer
  file_descriptor : Int
  curBufferIndex : Int
  deriving DecidableEq, Repr

/-- What an operation of the manager leaves behind: its C result, the object afterwards and
the calls it issued. -/
structure Result where
  ret : Int
  dev : VideoDevice
  events : List Event
  deriving DecidableEq, Repr

set_option linter.dupNamespace false in
/-- `VideoDevice::VideoDevice`. -/
def VideoDevice.VideoDevice (devSets : DeviceSettings) : VideoDevice :=
  { device_sets := devSets
    buffer_count := 0
    frame_buffers := 0
    pool := []
    file_descriptor := -1
    curBufferIndex := 0 }

/-- `VideoDevice::open_device`. -/
def open_device (k : OpenEnv) (d : VideoDevice) : Result :=
  let o := v4l2_open k d.device_sets.device_name
  let d1 := { d with file_descriptor := o.1 }
  if d1.file_descriptor = -1 then ⟨ERROR_LOCAL, d1, o.2⟩
  else ⟨SUCCESS_LOCAL, d1, o.2⟩

/-- How the driver and the allocator answer `init_device` and `init_mmap`. `reqbufs` holds
the granted count, `calloc` the returned pointer, `querybuf i` the length and offset of
buffer `i`, `mmap i` the address returned when buffer `i` is mapped. -/
structure ConfigEnv where
  querycap : Reply v4l2_capability
  s_std : Reply Unit
  cropcap : Reply Unit
  s_crop : Reply Unit
  s_fmt : Reply Unit
  reqbufs : Reply Nat
  calloc : Int
  querybuf : Nat → Reply (Nat × Nat)
  mmap : Nat → Int

/-- The `for` loop of `VideoDevice::init_mmap` (lines 187-206), with `todo` the number of
iterations left, `req.count - buffer_count`. The result is `none` when the loop runs to its
end and `some r` when an iteration returns `r`. -/
def init_mmap_loop (k : ConfigEnv) : Nat → VideoDevice → Option Int × VideoDevice × List Event
  | 0, d => (none, d, [])
  | todo + 1, d =>
    let i := d.buffer_count
    let q := Event.ioctl d.file_descriptor (Ioctl.VIDIOC_QUERYBUF i)
    match k.querybuf i with
    | Reply.fail _ => (some (errnoexit "VIDIOC_QUERYBUF"), d, [q])
    | Reply.ok (length, offset) =>
      let m := Event.mmap d.file_descriptor length offset
      let d1 := { d with pool := d.pool.set i ⟨k.mmap i, length⟩ }
      if k.mmap i = MAP_FAILED then (some (errnoexit "mmap"), d1, [q, m])
      else
        let r := init_mmap_loop k todo { d1 with buffer_count := i + 1 }
        (r.1, r.2.1, q :: m :: r.2.2)

/-- `VideoDevice::init_mmap`. -/
def init_mmap (k : ConfigEnv) (d : VideoDevice) : Result :=
  let count := (d.device_sets.num_buffers % 2 ^ 32).toNat
  let rq := Event.ioctl d.file_descriptor (Ioctl.VIDIOC_REQBUFS count)
  match k.reqbufs with
  | Reply.fail errno =>
    if errno = EINVAL then ⟨ERROR_LOCAL, d, [rq]⟩
    else ⟨errnoexit "VIDIOC_REQBUFS", d, [rq]⟩
  | Reply.ok granted =>
    if granted < 2 then ⟨ERROR_LOCAL, d, [rq]⟩
    else
      let d1 := { d with frame_buffers := k.calloc,
                         pool := if k.calloc = 0 then d.pool
                                 else List.replicate granted ⟨0, 0⟩ }
      if d1.frame_buffers = 0 then ⟨ERROR_LOCAL, d1, [rq, Event.calloc granted]⟩
      else
        let r := init_mmap_loop k granted { d1 with buffer_count := 0 }
        match r.1 with
        | some e => ⟨e, r.2.1, rq :: Event.calloc granted :: r.2.2⟩
        | none => ⟨SUCCESS_LOCAL, r.2.1, rq :: Event.calloc granted :: r.2.2⟩

/-- The `switch` on `device_sets.standard_id` in `init_device` (lines 93-102). -/
def requested_std_id : VideoStandard → Nat
  | VideoStandard.NTSC => V4L2_STD_NTSC
  | VideoStandard.PAL => V4L2_STD_PAL
  | _ => V4L2_STD_NTSC

/-- The `switch` on `device_sets.color_format` in `init_device` (lines 131-143): the value
stored in `fmt.fmt.pix.pixelformat`. -/
def requested_pixelformat : PixelFormat → Nat
  | PixelFormat.YUYV => V4L2_PIX_FMT_YUYV
  | PixelFormat.UYVY => V4L2_PIX_FMT_UYVY
  | PixelFormat.RGB565 => V4L2_PIX_FMT_RGB565
  | _ => V4L2_PIX_FMT_YUYV

/-- `VideoDevice::init_device`. -/
def init_device (k : ConfigEnv) (d : VideoDevice) : Result :=
  let fd := d.file_descriptor
  let e_cap := [Event.ioctl fd Ioctl.VIDIOC_QUERYCAP]
  match k.querycap with
  | Reply.fail errno =>
    if errno = EINVAL then ⟨ERROR_LOCAL, d, e_cap⟩
    else ⟨errnoexit "VIDIOC_QUERYCAP", d, e_cap⟩
  | Reply.ok cap =>
    if cap.capabilities &&& V4L2_CAP_VIDEO_CAPTURE = 0 then ⟨ERROR_LOCAL, d, e_cap⟩
    else if cap.capabilities &&& V4L2_CAP_STREAMING = 0 then ⟨ERROR_LOCAL, d, e_cap⟩
    else
      let std_id := requested_std_id d.device_sets.standard_id
      let e_std := e_cap ++ [Event.ioctl fd (Ioctl.VIDIOC_S_STD std_id)]
      match k.s_std with
      | Reply.fail _ => ⟨errnoexit "VIDIOC_S_STD", d, e_std⟩
      | Reply.ok _ =>
        let e_crop := e_std ++
          (match k.cropcap with
           | Reply.ok _ =>
             [Event.ioctl fd Ioctl.VIDIOC_CROPCAP, Event.ioctl fd Ioctl.VIDIOC_S_CROP]
           | Reply.fail _ => [Event.ioctl fd Ioctl.VIDIOC_CROPCAP])
        let pixelformat := requested_pixelformat d.device_sets.color_format
        let e_fmt := e_crop ++
          [Event.ioctl fd (Ioctl.VIDIOC_S_FMT d.device_sets.frame_width
            d.device_sets.frame_height pixelformat V4L2_FIELD_INTERLACED)]
        match k.s_fmt with
        | Reply.fail _ => ⟨errnoexit "VIDIOC_S_FMT", d, e_fmt⟩
        | Reply.ok _ =>
          let r := init_mmap k d
          ⟨r.ret, r.dev, e_fmt ++ r.events⟩

/-- How the driver answers `start_capture`. -/
structure StartEnv where
  qbuf : Nat → Reply Unit
  streamon : Reply Unit

/-- The `for` loop of `VideoDevice::start_capture`, with `todo = buffer_count - i`. -/
def start_capture_loop (k : StartEnv) (fd : Int) : Nat → Nat → Option Int × List Event
  | 0, _ => (none, [])
  | todo + 1, i =>
    match k.qbuf i with
    | Reply.fail _ => (some (errnoexit "VIDIOC_QBUF"), [Event.ioctl fd (Ioctl.VIDIOC_QBUF i)])
    | Reply.ok _ =>
      let r := start_capture_loop k fd todo (i + 1)
      (r.1, Event.ioctl fd (Ioctl.VIDIOC_QBUF i) :: r.2)

/-- `VideoDevice::start_capture`. -/
def start_capture (k : StartEnv) (d : VideoDevice) : Result :=
  let r := start_capture_loop k d.file_descriptor d.buffer_count 0
  match r.1 with
  | some e => ⟨e, d, r.2⟩
  | none =>
    let e_on := r.2 ++ [Event.ioctl d.file_descriptor Ioctl.VIDIOC_STREAMON]
    match k.streamon with
    | Reply.fail _ => ⟨errnoexit "VIDIOC_STREAMON", d, e_on⟩
    | Reply.ok _ => ⟨SUCCESS_LOCAL, d, e_on⟩

/-- What `select` returns in one turn of the wait loop, with the errno it sets. -/
structure SelectReply where
  result : Int
  errno : Int
  deriving DecidableEq, Repr

/-- How the driver answers `process_capture`: the replies of the `n`-th turn of its loop
to the readiness wait, the dequeue and the re-enqueue. -/
structure CaptureEnv where
  select : Nat → SelectReply
  dqbuf : Nat → Reply Nat
  qbuf : Nat → Reply Unit

/-- `VideoDevice::read_frame`; the result is `none` when the `assert` fails. -/
def read_frame (dq : Reply Nat) (qb : Reply Unit) (d : VideoDevice) :
    Option Int × VideoDevice × List Event :=
  let e_dq := Event.ioctl d.file_descriptor Ioctl.VIDIOC_DQBUF
  match dq with
  | Reply.fail errno =>
    if errno = EAGAIN then (some 0, d, [e_dq])
    else (some 1, d, [e_dq])
  | Reply.ok index =>
    if ¬ index < d.buffer_count then (none, d, [e_dq])
    else
      let d1 := { d with curBufferIndex := (index : Int) }
      let e_q := Event.ioctl d.file_descriptor (Ioctl.VIDIOC_QBUF index)
      match qb with
      | Reply.fail _ => (some (errnoexit "VIDIOC_QBUF"), d1, [e_dq, e_q])
      | Reply.ok _ => (some 1, d1, [e_dq, e_q])

/-- How a call of `process_capture` ends: it returns a pointer, the `assert` of
`read_frame` aborts the process, or the wait loop is still turning when the fuel is
spent. -/
inductive Completion where
  | returned (ptr : Int)
  | aborted
  | outOfFuel
  deriving DecidableEq, Repr

/-- The outcome of `process_capture`. -/
structure CaptureResult where
  status : Completion
  dev : VideoDevice
  events : List Event
  deriving DecidableEq, Repr

/-- The `for(;;)` loop of `VideoDevice::process_capture`; `n` counts the turns. -/
def process_capture_loop (k : CaptureEnv) : Nat → Nat → VideoDevice → CaptureResult
  | 0, _, d => ⟨Completion.outOfFuel, d, []⟩
  | fuel + 1, n, d =>
    let e_sel := Event.select d.file_descriptor
    let s := k.select n
    if s.result = -1 ∧ s.errno = EINTR then
      let r := process_capture_loop k fuel (n + 1) d
      ⟨r.status, r.dev, e_sel :: r.events⟩
    else if s.result = 0 then
      ⟨Completion.returned NULL, d, [e_sel, Event.sleep]⟩
    else
      let f := read_frame (k.dqbuf n) (k.qbuf n) d
      match f.1 with
      | none => ⟨Completion.aborted, f.2.1, e_sel :: f.2.2⟩
      | some v =>
        if v = 1 then
          ⟨Completion.returned
              (f.2.1.frame_buffers + f.2.1.curBufferIndex * sizeof_CaptureBuffer),
            f.2.1, e_sel :: f.2.2⟩
        else
          let r := process_capture_loop k fuel (n + 1) f.2.1
          ⟨r.status, r.dev, e_sel :: (f.2.2 ++ r.events)⟩

/-- `VideoDevice::process_capture`. -/
def process_capture (k : CaptureEnv) (fuel : Nat) (d : VideoDevice) : CaptureResult :=
  if d.file_descriptor = -1 then ⟨Completion.returned NULL, d, []⟩
  else process_capture_loop k fuel 0 d

/-- How the system answers `stop_device`: the stream-off ioctl, `munmap` of buffer `i`
and `close`. -/
structure StopEnv where
  streamoff : Reply Unit
  munmap : Nat → Int
  close_ret : Int

/-- `VideoDevice::stop_capture`. -/
def stop_capture (k : StopEnv) (d : VideoDevice) : Result :=
  if d.file_descriptor ≠ -1 then
    match k.streamoff with
    | Reply.fail _ =>
      ⟨errnoexit "VIDIOC_STREAMOFF", d,
        [Event.ioctl d.file_descriptor Ioctl.VIDIOC_STREAMOFF]⟩
    | Reply.ok _ => ⟨SUCCESS_LOCAL, d, [Event.ioctl d.file_descriptor Ioctl.VIDIOC_STREAMOFF]⟩
  else ⟨SUCCESS_LOCAL, d, []⟩

/-- The `for` loop of `VideoDevice::uninit_device`, with `todo = buffer_count - i`. -/
def uninit_device_loop (k : StopEnv) (d : VideoDevice) : Nat → Nat → Option Int × List Event
  | 0, _ => (none, [])
  | todo + 1, i =>
    let b := d.pool.getD i ⟨0, 0⟩
    if k.munmap i = -1 then (some (errnoexit "munmap"), [Event.munmap b.start b.length])
    else
      let r := uninit_device_loop k d todo (i + 1)
      (r.1, Event.munmap b.start b.length :: r.2)

/-- `VideoDevice::uninit_device`. No member is written. -/
def uninit_device (k : StopEnv) (d : VideoDevice) : Result :=
  let r := uninit_device_loop k d d.buffer_count 0
  match r.1 with
  | some e => ⟨e, d, r.2⟩
  | none => ⟨SUCCESS_LOCAL, d, r.2 ++ [Event.free d.frame_buffers]⟩

/-- `VideoDevice::close_device`. -/
def close_device (k : StopEnv) (d : VideoDevice) : Result :=
  let c := v4l2_close k.close_ret d.file_descriptor
  ⟨c.1, d, c.2⟩

/-- `VideoDevice::stop_device`; the three results are discarded, `ret` is left `0`. -/
def stop_device (k : StopEnv) (d : VideoDevice) : Result :=
  let r1 := stop_capture k d
  let r2 := uninit_device k r1.dev
  let r3 := close_device k r2.dev
  ⟨0, r3.dev, r1.events ++ r2.events ++ r3.events⟩

/-! ## The frame renderer -/

/-- The three member functions `processFrame` can point to. -/
inductive ProcessFrame where
  | processFromYUYV
  | processFromUYVY
  | processFromRGB
  deriving DecidableEq, Repr

/-- What `initRenderscript` allocates: the element counts of the input and the output
allocation. -/
structure RenderScript where
  inAllocationSize : Int
  outAllocationSize : Int
  deriving DecidableEq, Repr

/-- `FrameRenderer::initRenderscript`. -/
def initRenderscript (bufLength : Int) : RenderScript :=
  { inAllocationSize := Int.tdiv bufLength 4
    outAllocationSize := Int.tdiv (bufLength * 2) 4 }

/-- The members of `FrameRenderer`; `rs` is `none` while `initRenderscript` has not run. -/
structure FrameRenderer where
  frameWidth : Int
  frameHeight : Int
  framePixelFormat : Int
  processFrame : ProcessFrame
  rs : Option RenderScript
  deriving DecidableEq, Repr

set_option linter.dupNamespace false in
/-- `FrameRenderer::FrameRenderer`. -/
def FrameRenderer.FrameRenderer (dSets : DeviceSettings) : FrameRenderer :=
  let frameWidth := dSets.frame_width
  let frameHeight := dSets.frame_height
  match dSets.color_format with
  | PixelFormat.YUYV =>
    ⟨frameWidth, frameHeight, WINDOW_FORMAT_RGBA_8888, ProcessFrame.processFromYUYV,
      some (initRenderscript (frameWidth * frameHeight * 2))⟩
  | PixelFormat.UYVY =>
    ⟨frameWidth, frameHeight, WINDOW_FORMAT_RGBA_8888, ProcessFrame.processFromUYVY,
      some (initRenderscript (frameWidth * frameHeight * 2))⟩
  | PixelFormat.RGB565 =>
    ⟨frameWidth, frameHeight, WINDOW_FORMAT_RGB_565, ProcessFrame.processFromRGB, none⟩
  | PixelFormat.RGBA8888 =>
    ⟨frameWidth, frameHeight, WINDOW_FORMAT_RGBA_8888, ProcessFrame.processFromRGB, none⟩
  | _ =>
    ⟨frameWidth, frameHeight, WINDOW_FORMAT_RGBA_8888, ProcessFrame.processFromYUYV,
      some (initRenderscript (frameWidth * frameHeight * 2))⟩

/-- The pair the constructor binds for one value of `color_format`, the other settings
being those of `dSets`. -/
def bound_pair (dSets : DeviceSettings) (c : PixelFormat) : ProcessFrame × Int :=
  let r := FrameRenderer.FrameRenderer { dSets with color_format := c }
  (r.processFrame, r.framePixelFormat)

/-- Byte memory seen from a base pointer: offset to byte. -/
abbrev Bytes := Nat → Nat

/-- The C library `memcpy(dest, src, n)`: the memory at `dest` afterwards. -/
def memcpy (dest src : Bytes) (n : Nat) : Bytes :=
  fun i => if i < n then src i else dest i

/-- The display surface as the renderer sees it: the geometry declared on it, what
`ANativeWindow_lock` returns this cycle, the size in bytes of the backing store that
`wBuffer.bits` points to, the memory at `wBuffer.bits` (the backing store and what lies
behind it), and the number of frames posted. -/
structure ANativeWindow where
  width : Int
  height : Int
  format : Int
  lock_result : Int
  capacity : Nat
  bits : Bytes
  posted : Nat

/-- `FrameRenderer::processFromRGB`; `inBytes` is the memory at `inBuffer->start`. -/
def processFromRGB (inBuffer : CaptureBuffer) (inBytes : Bytes) (window : ANativeWindow) :
    ANativeWindow :=
  if window.lock_result = 0 then
    { window with bits := memcpy window.bits inBytes inBuffer.length
                  posted := window.posted + 1 }
  else window

/-- `FrameRenderer::processFromYUYV` and `FrameRenderer::processFromUYVY`; `convert` is
the RenderScript kernel, which maps the bytes of the input allocation to the bytes of the
output allocation. -/
def processFromYUV (convert : Bytes → Bytes) (r : FrameRenderer) (inBytes : Bytes)
    (window : ANativeWindow) : ANativeWindow :=
  match r.rs with
  | none => window
  | some a =>
    let input := memcpy (fun _ => 0) inBytes (a.inAllocationSize * 4).toNat
    if window.lock_result = 0 then
      { window with bits := memcpy window.bits (convert input) (a.outAllocationSize * 4).toNat
                    posted := window.posted + 1 }
    else window

/-- `FrameRenderer::renderFrame`. -/
def renderFrame (convertFromYUYV convertFromUYVY : Bytes → Bytes) (r : FrameRenderer)
    (surface : ANativeWindow) (inBuffer : CaptureBuffer) (inBytes : Bytes) : ANativeWindow :=
  let rWindow := { surface with width := r.frameWidth, height := r.frameHeight,
                                format := r.framePixelFormat }
  match r.processFrame with
  | ProcessFrame.processFromYUYV => processFromYUV convertFromYUYV r inBytes rWindow
  | ProcessFrame.processFromUYVY => processFromYUV convertFromUYVY r inBytes rWindow
  | ProcessFrame.processFromRGB => processFromRGB inBuffer inBytes rWindow

/-- The kernel pixel format whose byte layout a bound strategy takes its input to have, as
the specification words it: YUYV for `processFromYUYV`, UYVY for `processFromUYVY`, RGB565
for the identity copy onto an RGB_565 surface, 32-bit RGBA for the identity copy onto an
RGBA_8888 surface. -/
def assumed_input (b : ProcessFrame × Int) : Nat :=
  match b.1 with
  | ProcessFrame.processFromYUYV => V4L2_PIX_FMT_YUYV
  | ProcessFrame.processFromUYVY => V4L2_PIX_FMT_UYVY
  | ProcessFrame.processFromRGB =>
    if b.2 = WINDOW_FORMAT_RGB_565 then V4L2_PIX_FMT_RGB565 else V4L2_PIX_FMT_RGBA32

/-! ## Observations on call lists -/

/-- Whether a call allocates the pool, queries a buffer or maps one. -/
def Event.setsUpBuffer : Event → Bool
  | Event.ioctl _ (Ioctl.VIDIOC_QUERYBUF _) => true
  | Event.mmap _ _ _ => true
  | Event.calloc _ => true
  | _ => false

/-- Whether a call is a stream-off, an unmap, a free or a close. -/
def Event.releases : Event → Bool
  | Event.ioctl _ Ioctl.VIDIOC_STREAMOFF => true
  | Event.munmap _ _ => true
  | Event.free _ => true
  | Event.close _ => true
  | _ => false

/-- The length the driver reports for buffer `i` (`0` when the query fails). -/
def ConfigEnv.length (k : ConfigEnv) (i : Nat) : Nat :=
  match k.querybuf i with
  | Reply.ok (length, _) => length
  | Reply.fail _ => 0

/-- Buffer `i` can be set up: its query succeeds and its mapping does not fail. -/
def ConfigEnv.mappable (k : ConfigEnv) (i : Nat) : Prop :=
  (∃ v, k.querybuf i = Reply.ok v) ∧ k.mmap i ≠ MAP_FAILED

/-- The manager as the loop of `init_mmap` finds it after `calloc` returned a pool of `n`
zeroed slots. -/
def pool_allocated (k : ConfigEnv) (d : VideoDevice) (n : Nat) : VideoDevice :=
  { d with frame_buffers := k.calloc, pool := List.replicate n ⟨0, 0⟩, buffer_count := 0 }

/-- Whether an `xioctl` returned `0`. -/
def Reply.succeeded {α : Type} : Reply α → Bool
  | Reply.ok _ => true
  | Reply.fail _ => false

/-- Turn `i` of the wait loop is interrupted: `select` returns `-1` with `EINTR`. -/
abbrev CaptureEnv.interrupted (k : CaptureEnv) (i : Nat) : Prop :=
  (k.select i).result = -1 ∧ (k.select i).errno = EINTR

/-- Turn `i` finds no buffer: the wait is neither interrupted nor timed out and the dequeue
reports `EAGAIN`. -/
abbrev CaptureEnv.empty (k : CaptureEnv) (i : Nat) : Prop :=
  ¬ k.interrupted i ∧ (k.select i).result ≠ 0 ∧ k.dqbuf i = Reply.fail EAGAIN

/-- Turn `i` is one the loop goes round again after: interrupted, or no buffer. -/
abbrev CaptureEnv.retried (k : CaptureEnv) (i : Nat) : Prop :=
  k.interrupted i ∨ k.empty i

/-- Turn `i` has its dequeue rejected: the wait is neither interrupted nor timed out and
the dequeue fails with an errno other than `EAGAIN`. -/
abbrev CaptureEnv.rejected (k : CaptureEnv) (i : Nat) : Prop :=
  ¬ k.interrupted i ∧ (k.select i).result ≠ 0 ∧ ∃ e, k.dqbuf i = Reply.fail e ∧ e ≠ EAGAIN

/-- The calls of `j` retried turns from turn `n` on: a `select` for an interrupted turn, a
`select` and a dequeue for a turn without buffer. -/
def retry_events (k : CaptureEnv) (fd : Int) : Nat → Nat → List Event
  | _, 0 => []
  | n, j + 1 =>
    (if k.interrupted n then [Event.select fd]
     else [Event.select fd, Event.ioctl fd Ioctl.VIDIOC_DQBUF])
      ++ retry_events k fd (n + 1) j

/-- The manager after construction, `open_device` and `init_device`, never started. -/
def configure (devSets : DeviceSettings) (o : OpenEnv) (kc : ConfigEnv) : VideoDevice :=
  (init_device kc (open_device o (VideoDevice.VideoDevice devSets)).dev).dev

/-! ## Concrete scenarios -/

/-- Settings 640 x 480, RGB565, two buffers. -/
def settings640 : DeviceSettings :=
  ⟨"/dev/video0", 640, 480, PixelFormat.RGB565, VideoStandard.NTSC, 2⟩

/-- A character device whose `open` yields descriptor 3. -/
def node_ok : OpenEnv := ⟨true, true, 3⟩

/-- A probe in which the node opens and the capability query fails. -/
def probe_query_fails : ProbeEnv := ⟨node_ok, Reply.fail EIO, 0⟩

/-- A probe of a `usbtv` adapter in which every call succeeds. -/
def probe_usbtv : ProbeEnv :=
  ⟨node_ok, Reply.ok ⟨['u', 's', 'b', 't', 'v'], 0x04000001⟩, 0⟩

/-- A driver that accepts every request and grants two buffers of 614400 bytes. -/
def driver_two_buffers : ConfigEnv :=
  { querycap := Reply.ok ⟨['u', 's', 'b', 't', 'v'], 0x04000001⟩
    s_std := Reply.ok ()
    cropcap := Reply.ok ()
    s_crop := Reply.ok ()
    s_fmt := Reply.ok ()
    reqbufs := Reply.ok 2
    calloc := 4096
    querybuf := fun i => Reply.ok (614400, i * 614400)
    mmap := fun i => 1048576 * ((i : Int) + 1) }

/-- The same driver, except that it rejects the standard-select request. -/
def driver_std_rejected : ConfigEnv :=
  { driver_two_buffers with s_std := Reply.fail EINVAL }

/-- The same driver, except that the query of buffer 1 fails. -/
def driver_querybuf1_fails : ConfigEnv :=
  { driver_two_buffers with
    querybuf := fun i => if i = 0 then Reply.ok (614400, 0) else Reply.fail EIO }

/-- The same driver, except that it grants a single buffer. -/
def driver_grants_one : ConfigEnv :=
  { driver_two_buffers with reqbufs := Reply.ok 1 }

/-- The manager after construction and `open_device`. -/
def opened : VideoDevice :=
  (open_device node_ok (VideoDevice.VideoDevice settings640)).dev

/-- The manager after construction, `open_device` and `init_device`, never started. -/
def configured : VideoDevice := (init_device driver_two_buffers opened).dev

/-- A teardown in which every call succeeds. -/
def stop_ok : StopEnv := ⟨Reply.ok (), fun _ => 0, 0⟩

/-- The errno value `EBADF` of `errno.h`. -/
def EBADF : Int := 9

/-- A teardown on a descriptor that is already closed: stream-off and `close` fail with
`EBADF`. -/
def stop_after_close : StopEnv := ⟨Reply.fail EBADF, fun _ => 0, -1⟩

/-- A handle that is reported ready and whose dequeue is rejected with `EINVAL`. -/
def ready_dequeue_einval : CaptureEnv :=
  ⟨fun _ => ⟨1, 0⟩, fun _ => Reply.fail EINVAL, fun _ => Reply.ok ()⟩

/-- A wait that is interrupted on turn 0, finds no buffer on turn 1 and has its dequeue
rejected with `EINVAL` on turn 2. -/
def retried_then_einval : CaptureEnv :=
  ⟨fun i => if i = 0 then ⟨-1, EINTR⟩ else ⟨1, 0⟩,
   fun i => if i = 1 then Reply.fail EAGAIN else Reply.fail EINVAL,
   fun _ => Reply.ok ()⟩

/-- A wait that is interrupted on turn 0, finds no buffer on turn 1 and times out on
turn 2. -/
def retried_then_timeout : CaptureEnv :=
  ⟨fun i => if i = 0 then ⟨-1, EINTR⟩ else if i = 1 then ⟨1, 0⟩ else ⟨0, 0⟩,
   fun _ => Reply.fail EAGAIN,
   fun _ => Reply.ok ()⟩

/-- A wait that times out at once. -/
def wait_times_out : CaptureEnv :=
  ⟨fun _ => ⟨0, 0⟩, fun _ => Reply.fail EAGAIN, fun _ => Reply.ok ()⟩

/-- A lockable surface with a backing store of two bytes, all memory zero. -/
def surface2 : ANativeWindow := ⟨0, 0, 0, 0, 2, fun _ => 0, 0⟩

/-- A lockable surface with a backing store of eight bytes, all memory zero. -/
def surface8 : ANativeWindow := ⟨0, 0, 0, 0, 8, fun _ => 0, 0⟩

/-- A captured buffer of four bytes. -/
def buffer4 : CaptureBuffer := ⟨1048576, 4⟩

/-! ## Prefix matching -/

theorem char_toNat_inj {a b : Char} (h : a.toNat = b.toNat) : a = b := by
  rw [← Char.ofNat_toNat a, ← Char.ofNat_toNat b, h]

theorem strncmp_eq_zero_iff_prefix (lit : List Char) (hnul : Char.ofNat 0 ∉ lit)
    (s : List Char) : strncmp s lit lit.length = 0 ↔ lit <+: s := by
  induction lit generalizing s with
  | nil => simp [strncmp]
  | cons c cs ih =>
    have hc : c ≠ Char.ofNat 0 := fun h => hnul (by simp [h])
    have hcs : Char.ofNat 0 ∉ cs := fun h => hnul (by simp [h])
    cases s with
    | nil =>
      simp only [List.length_cons, strncmp, List.headD_nil, List.headD_cons]
      rw [if_pos (Ne.symm hc)]
      have hlt : (Char.ofNat 0).toNat ≠ c.toNat := fun h => hc (char_toNat_inj h).symm
      constructor
      · intro h; omega
      · intro h; simp at h
    | cons a as =>
      simp only [List.length_cons, strncmp, List.headD_cons, List.tail_cons]
      by_cases hac : a = c
      · subst hac
        simp only [ne_eq, not_true_eq_false, if_false, if_neg hc]
        rw [ih hcs as]
        simp [List.cons_prefix_cons]
      · rw [if_pos hac]
        have hlt : a.toNat ≠ c.toNat := fun h => hac (char_toNat_inj h)
        constructor
        · intro h; omega
        · intro h
          rw [List.cons_prefix_cons] at h
          exact absurd h.1.symm hac

/-! ## The strategy selector -/

/-- C1: for every value of `color_format` the constructor binds one pair: RGB565 gives
(`processFromRGB`, RGB_565), RGBA8888 gives (`processFromRGB`, RGBA_8888), YUYV gives
(`processFromYUYV`, RGBA_8888), UYVY gives (`processFromUYVY`, RGBA_8888), every other value
gives the pair of YUYV; the declared surface format is RGB_565 exactly for RGB565. -/
theorem constructor_binds_pair (dSets : DeviceSettings) :
    bound_pair dSets PixelFormat.RGB565
        = (ProcessFrame.processFromRGB, WINDOW_FORMAT_RGB_565) ∧
    bound_pair dSets PixelFormat.RGBA8888
        = (ProcessFrame.processFromRGB, WINDOW_FORMAT_RGBA_8888) ∧
    bound_pair dSets PixelFormat.YUYV
        = (ProcessFrame.processFromYUYV, WINDOW_FORMAT_RGBA_8888) ∧
    bound_pair dSets PixelFormat.UYVY
        = (ProcessFrame.processFromUYVY, WINDOW_FORMAT_RGBA_8888) ∧
    (∀ raw, bound_pair dSets (PixelFormat.other raw) = bound_pair dSets PixelFormat.YUYV) ∧
    (∀ c, (FrameRenderer.FrameRenderer { dSets with color_format := c }).framePixelFormat
        = WINDOW_FORMAT_RGB_565 ↔ c = PixelFormat.RGB565) := by
  refine ⟨rfl, rfl, rfl, rfl, fun _ => rfl, fun c => ?_⟩
  cases c <;> simp [FrameRenderer.FrameRenderer, WINDOW_FORMAT_RGB_565, WINDOW_FORMAT_RGBA_8888]

/-! ## The device prober -/

/-- C2: when open, capability query and close all succeed, `detect_device` returns the
result of ordered fixed-prefix matching on the reported driver string; for the empty string
and for the strict prefix "usbt" that result is `NO_DEVICE`. -/
theorem detect_device_prefix_match (k : ProbeEnv) (dev_name : String) (cap : v4l2_capability)
    (hstat : k.file.stat_ok = true) (hchr : k.file.is_chr = true)
    (hopen : k.file.open_fd ≠ -1) (hquery : k.querycap = Reply.ok cap)
    (hclose : k.close_ret ≠ -1) :
    (detect_device k dev_name).1 = classifyByPrefix cap.driver ∧
    (cap.driver = [] ∨ cap.driver = ['u', 's', 'b', 't'] →
      (detect_device k dev_name).1 = DeviceType.NO_DEVICE) := by
  suffices hmain : (detect_device k dev_name).1 = classifyByPrefix cap.driver by
    refine ⟨hmain, fun h => ?_⟩
    rw [hmain]
    rcases h with h | h <;> rw [h] <;> decide
  have h1 := strncmp_eq_zero_iff_prefix ['u', 's', 'b', 't', 'v'] (by decide) cap.driver
  have h2 := strncmp_eq_zero_iff_prefix ['e', 'm', '2', '8', 'x', 'x'] (by decide) cap.driver
  have h3 := strncmp_eq_zero_iff_prefix ['s', 't', 'k', '1', '1', '6', '0'] (by decide)
    cap.driver
  have h4 := strncmp_eq_zero_iff_prefix ['s', 'm', 'i', '2', '0', '2', '1'] (by decide)
    cap.driver
  simp only [List.length_cons, List.length_nil] at h1 h2 h3 h4
  have ho : v4l2_open k.file dev_name
      = (k.file.open_fd, [Event.stat dev_name, Event.open dev_name]) := by
    simp only [v4l2_open, hstat, hchr]
    rw [if_neg hopen]
    simp
  have hc : (v4l2_close k.close_ret k.file.open_fd).1 = SUCCESS_LOCAL := by
    unfold v4l2_close
    rw [if_pos hopen, if_neg hclose]
  unfold detect_device
  simp only [ho, hquery]
  rw [if_neg hopen, if_neg (not_not.mpr hc)]
  simp only [classifyByPrefix, h1, h2, h3, h4]

/-- C2, at a probe of a `usbtv` adapter. -/
theorem detect_device_prefix_match_witness :
    (detect_device probe_usbtv "/dev/video0").1 = DeviceType.UTV007 :=
  (detect_device_prefix_match probe_usbtv "/dev/video0" ⟨['u', 's', 'b', 't', 'v'], 0x04000001⟩
    rfl rfl (by decide) rfl (by decide)).1

/-- C10: when the node opens as descriptor 3 and the capability query fails,
`detect_device` returns `NO_DEVICE` after `stat`, `open` and the query, and issues no
`close`: the handle is still open when it returns. -/
theorem detect_device_query_failure_leaves_handle_open :
    detect_device probe_query_fails "/dev/video0"
      = (DeviceType.NO_DEVICE,
          [Event.stat "/dev/video0", Event.open "/dev/video0",
           Event.ioctl 3 Ioctl.VIDIOC_QUERYCAP]) ∧
    (detect_device probe_query_fails "/dev/video0").2.any Event.releases = false ∧
    (detect_device probe_usbtv "/dev/video0").2.getLast? = some (Event.close 3) := by
  decide

/-! ## Negotiated format against bound strategy -/

/-- C9: for `color_format = RGBA8888` the format `init_device` requests from the driver is
YUYV (the request it sends carries that code), while the constructor binds the identity
copy onto an RGBA_8888 surface, whose input is 32-bit RGBA: the two disagree. For YUYV,
UYVY and RGB565 they agree. -/
theorem rgba8888_request_disagrees_with_strategy :
    requested_pixelformat PixelFormat.RGBA8888 = V4L2_PIX_FMT_YUYV ∧
    Event.ioctl 3 (Ioctl.VIDIOC_S_FMT 640 480 V4L2_PIX_FMT_YUYV V4L2_FIELD_INTERLACED) ∈
      (init_device driver_two_buffers
        { opened with device_sets :=
            { settings640 with color_format := PixelFormat.RGBA8888 } }).events ∧
    bound_pair settings640 PixelFormat.RGBA8888
      = (ProcessFrame.processFromRGB, WINDOW_FORMAT_RGBA_8888) ∧
    assumed_input (bound_pair settings640 PixelFormat.RGBA8888) = V4L2_PIX_FMT_RGBA32 ∧
    requested_pixelformat PixelFormat.RGBA8888
      ≠ assumed_input (bound_pair settings640 PixelFormat.RGBA8888) ∧
    requested_pixelformat PixelFormat.YUYV
      = assumed_input (bound_pair settings640 PixelFormat.YUYV) ∧
    requested_pixelformat PixelFormat.UYVY
      = assumed_input (bound_pair settings640 PixelFormat.UYVY) ∧
    requested_pixelformat PixelFormat.RGB565
      = assumed_input (bound_pair settings640 PixelFormat.RGB565) := by
  decide

/-! ## The identity copy -/

/-- C8, as the code has it: on the identity-copy path, with the surface locked, `renderFrame`
writes exactly the `L = inBuffer.length` bytes at offsets below `L`, whatever the capacity
`C` of the backing store, and they equal the first `L` bytes of the source; every byte at
an offset from `L` on is left as it was; the frame is posted once. When `L ≤ C` this is
`min L C` bytes and no byte beyond the capacity is written. -/
theorem identity_copy_writes_length_bytes (convertFromYUYV convertFromUYVY : Bytes → Bytes)
    (r : FrameRenderer) (surface : ANativeWindow) (inBuffer : CaptureBuffer) (inBytes : Bytes)
    (hpath : r.processFrame = ProcessFrame.processFromRGB)
    (hlock : surface.lock_result = 0) :
    let out := renderFrame convertFromYUYV convertFromUYVY r surface inBuffer inBytes
    (∀ i, i < inBuffer.length → out.bits i = inBytes i) ∧
    (∀ i, inBuffer.length ≤ i → out.bits i = surface.bits i) ∧
    out.posted = surface.posted + 1 ∧
    (inBuffer.length ≤ surface.capacity →
      min inBuffer.length surface.capacity = inBuffer.length ∧
      ∀ i, surface.capacity ≤ i → out.bits i = surface.bits i) := by
  simp only [renderFrame, hpath, processFromRGB, hlock, if_true, memcpy]
  refine ⟨?_, ?_, trivial, ?_⟩
  · intro i hi
    simp [hi]
  · intro i hi
    simp [Nat.not_lt.mpr hi]
  · intro hle
    refine ⟨Nat.min_eq_left hle, ?_⟩
    intro i hi
    simp [Nat.not_lt.mpr (Nat.le_trans hle hi)]

/-- C8, as the code has it, for a four-byte buffer and an eight-byte surface. -/
theorem identity_copy_writes_length_bytes_witness :
    let out := renderFrame id id (FrameRenderer.FrameRenderer settings640) surface8 buffer4
      (fun _ => 7)
    (∀ i, i < buffer4.length → out.bits i = 7) ∧
    (∀ i, buffer4.length ≤ i → out.bits i = surface8.bits i) ∧
    out.posted = surface8.posted + 1 ∧
    (buffer4.length ≤ surface8.capacity →
      min buffer4.length surface8.capacity = buffer4.length ∧
      ∀ i, surface8.capacity ≤ i → out.bits i = surface8.bits i) :=
  identity_copy_writes_length_bytes id id (FrameRenderer.FrameRenderer settings640) surface8
    buffer4 (fun _ => 7) rfl rfl

/-- C8 as stated fails: a four-byte buffer presented on a locked surface whose backing
store holds two bytes changes the four bytes at offsets 0 to 3, not `min 4 2 = 2` bytes;
offsets 2 and 3 lie beyond the capacity. -/
theorem identity_copy_overruns_small_surface :
    let out := renderFrame id id (FrameRenderer.FrameRenderer settings640) surface2 buffer4
      (fun _ => 7)
    (List.range 16).filter (fun i => out.bits i ≠ surface2.bits i) = [0, 1, 2, 3] ∧
    min buffer4.length surface2.capacity = 2 ∧
    surface2.capacity ≤ 3 ∧ out.bits 3 = 7 ∧ surface2.bits 3 = 0 := by
  decide

/-! ## Buffer pool set-up -/

theorem open_device_dev (o : OpenEnv) (d : VideoDevice) :
    (open_device o d).dev
      = { d with file_descriptor := (v4l2_open o d.device_sets.device_name).1 } := by
  simp only [open_device]
  split <;> rfl

theorem init_mmap_insufficient (k : ConfigEnv) (d : VideoDevice) (granted : Nat)
    (hreq : k.reqbufs = Reply.ok granted) (hlt : granted < 2) :
    init_mmap k d = ⟨ERROR_LOCAL, d,
      [Event.ioctl d.file_descriptor
        (Ioctl.VIDIOC_REQBUFS (d.device_sets.num_buffers % 2 ^ 32).toNat)]⟩ := by
  simp only [init_mmap, hreq, hlt, if_true]

/-- C3: when the buffer-pool request succeeds but grants fewer than 2 buffers, `init_mmap`
and `init_device` return the failure result, leave the object as it was and issue no
`calloc`, no buffer query and no `mmap`; on a manager that was constructed and opened,
`buffer_count` is still 0 and `frame_buffers` still the null pointer. -/
theorem insufficient_buffers_rejected (k : ConfigEnv) (d : VideoDevice) (granted : Nat)
    (devSets : DeviceSettings) (o : OpenEnv)
    (hreq : k.reqbufs = Reply.ok granted) (hlt : granted < 2) :
    (init_mmap k d).ret = ERROR_LOCAL ∧ (init_mmap k d).dev = d ∧
    (init_mmap k d).events.any Event.setsUpBuffer = false ∧
    (init_device k d).ret = ERROR_LOCAL ∧ (init_device k d).dev = d ∧
    (init_device k d).events.any Event.setsUpBuffer = false ∧
    (init_device k (open_device o (VideoDevice.VideoDevice devSets)).dev).dev.buffer_count = 0 ∧
    (init_device k (open_device o (VideoDevice.VideoDevice devSets)).dev).dev.frame_buffers
      = NULL := by
  have hdev : ∀ d0, (init_device k d0).ret = ERROR_LOCAL ∧ (init_device k d0).dev = d0 ∧
      (init_device k d0).events.any Event.setsUpBuffer = false := by
    intro d0
    have hm := init_mmap_insufficient k d0 granted hreq hlt
    unfold init_device
    rw [hm]
    cases k.querycap <;> cases k.s_std <;> cases k.cropcap <;> cases k.s_fmt <;>
      simp only [] <;> repeat' split <;>
      simp [errnoexit, Event.setsUpBuffer]
  refine ⟨?_, ?_, ?_, (hdev d).1, (hdev d).2.1, (hdev d).2.2, ?_, ?_⟩
  · rw [init_mmap_insufficient k d granted hreq hlt]
  · rw [init_mmap_insufficient k d granted hreq hlt]
  · rw [init_mmap_insufficient k d granted hreq hlt]; simp [Event.setsUpBuffer]
  · rw [(hdev _).2.1, open_device_dev]
    rfl
  · rw [(hdev _).2.1, open_device_dev]
    rfl

theorem init_mmap_loop_success (k : ConfigEnv) (todo : Nat) (d : VideoDevice)
    (h : ∀ i, d.buffer_count ≤ i → i < d.buffer_count + todo → k.mappable i) :
    (init_mmap_loop k todo d).1 = none ∧
    (init_mmap_loop k todo d).2.1.buffer_count = d.buffer_count + todo := by
  induction todo generalizing d with
  | zero => simp [init_mmap_loop]
  | succ t ih =>
    obtain ⟨⟨v, hq⟩, hm⟩ := h d.buffer_count (Nat.le_refl _) (by omega)
    obtain ⟨len, off⟩ := v
    simp only [init_mmap_loop, hq, if_neg hm]
    have := ih { d with pool := d.pool.set d.buffer_count ⟨k.mmap d.buffer_count, len⟩,
                        buffer_count := d.buffer_count + 1 }
      (fun i h1 h2 => h i (by simp only at h1; omega) (by simp only at h2; omega))
    refine ⟨this.1, ?_⟩
    rw [this.2]
    simp only
    omega

theorem init_mmap_loop_failure (k : ConfigEnv) (kk : Nat) (hfail : ¬ k.mappable kk)
    (todo : Nat) (d : VideoDevice) (hge : d.buffer_count ≤ kk)
    (hlt : kk < d.buffer_count + todo) (hlen : kk < d.pool.length)
    (hprev : ∀ i, d.buffer_count ≤ i → i < kk → k.mappable i) :
    (init_mmap_loop k todo d).1 = some ERROR_LOCAL ∧
    (init_mmap_loop k todo d).2.1.buffer_count = kk ∧
    (init_mmap_loop k todo d).2.1.frame_buffers = d.frame_buffers ∧
    (init_mmap_loop k todo d).2.2.any Event.releases = false ∧
    (∀ i, i < kk → (init_mmap_loop k todo d).2.1.pool[i]? =
      if i < d.buffer_count then d.pool[i]? else some ⟨k.mmap i, k.length i⟩) := by
  induction todo generalizing d with
  | zero => omega
  | succ t ih =>
    by_cases hb : d.buffer_count = kk
    · have hpre : ∀ i, i < kk → (if i < d.buffer_count then d.pool[i]?
          else some (CaptureBuffer.mk (k.mmap i) (k.length i))) = d.pool[i]? := by
        intro i hi
        rw [if_pos (by omega)]
      cases hq : k.querybuf d.buffer_count with
      | fail e =>
        simp only [init_mmap_loop, hq]
        refine ⟨by trivial, hb, by trivial, by simp [Event.releases], ?_⟩
        intro i hi
        rw [hpre i hi]
      | ok v =>
        obtain ⟨len, off⟩ := v
        have hm : k.mmap d.buffer_count = MAP_FAILED := by
          by_contra hne
          exact hfail (hb ▸ ⟨⟨(len, off), hq⟩, hne⟩)
        simp only [init_mmap_loop, hq, if_pos hm]
        refine ⟨by trivial, hb, by trivial, by simp [Event.releases], ?_⟩
        intro i hi
        rw [hpre i hi, List.getElem?_set_ne (by omega)]
    · have hb1 : d.buffer_count < kk := by omega
      obtain ⟨⟨v, hq⟩, hm⟩ := hprev d.buffer_count (Nat.le_refl _) hb1
      obtain ⟨len, off⟩ := v
      simp only [init_mmap_loop, hq, if_neg hm]
      have hklen : k.length d.buffer_count = len := by simp [ConfigEnv.length, hq]
      have := ih { d with pool := d.pool.set d.buffer_count ⟨k.mmap d.buffer_count, len⟩,
                          buffer_count := d.buffer_count + 1 }
        (by simp only; omega) (by simp only; omega) (by simp only [List.length_set]; exact hlen)
        (fun i h1 h2 => hprev i (by simp only at h1; omega) h2)
      obtain ⟨h1, h2, h3, h4, h5⟩ := this
      refine ⟨h1, h2, h3, ?_, ?_⟩
      · simp only [List.any_cons, Event.releases, h4, Bool.or_self]
      · intro i hi
        rw [h5 i hi]
        simp only
        by_cases hib : i < d.buffer_count
        · rw [if_pos (by omega), if_pos hib, List.getElem?_set_ne (by omega)]
        · by_cases hieq : i = d.buffer_count
          · subst hieq
            rw [if_pos (by omega), if_neg hib, List.getElem?_set, if_pos rfl,
              if_pos (by omega), hklen]
          · rw [if_neg (by omega), if_neg hib]

theorem uninit_device_loop_ok (ks : StopEnv) (d : VideoDevice)
    (hok : ∀ i, ks.munmap i ≠ -1) (todo i : Nat) :
    uninit_device_loop ks d todo i =
      (none, (List.range' i todo).map (fun j =>
        Event.munmap (d.pool.getD j ⟨0, 0⟩).start (d.pool.getD j ⟨0, 0⟩).length)) := by
  induction todo generalizing i with
  | zero => simp [uninit_device_loop]
  | succ t ih =>
    simp only [uninit_device_loop, if_neg (hok i), ih (i + 1), List.range'_succ, List.map_cons]

/-- C3, for a driver that grants one buffer to a manager that was just opened. -/
theorem insufficient_buffers_rejected_witness :
    (init_mmap driver_grants_one opened).ret = ERROR_LOCAL ∧
    (init_mmap driver_grants_one opened).dev = opened ∧
    (init_mmap driver_grants_one opened).events.any Event.setsUpBuffer = false ∧
    (init_device driver_grants_one opened).ret = ERROR_LOCAL ∧
    (init_device driver_grants_one opened).dev = opened ∧
    (init_device driver_grants_one opened).events.any Event.setsUpBuffer = false ∧
    (init_device driver_grants_one
      (open_device node_ok (VideoDevice.VideoDevice settings640)).dev).dev.buffer_count = 0 ∧
    (init_device driver_grants_one
      (open_device node_ok (VideoDevice.VideoDevice settings640)).dev).dev.frame_buffers
      = NULL :=
  insufficient_buffers_rejected driver_grants_one opened 1 settings640 node_ok rfl (by decide)

/-- C6, as the code has it: when the pool request grants `n ≥ 2` buffers, buffers `0..k-1`
are set up and the query or the mapping of buffer `k < n` fails, `init_mmap` returns the
failure result and unmaps nothing: it issues no `munmap` and no `free`, `frame_buffers`
stays allocated, `buffer_count` is `k` and slots `0..k-1` of the pool hold the `k` mappings.
A later `uninit_device` (the teardown of `stop_device`) whose unmaps succeed unmaps exactly
those `k` buffers and then frees the pool. -/
theorem init_mmap_failure_keeps_mappings (k : ConfigEnv) (ks : StopEnv) (d : VideoDevice)
    (n kk : Nat) (hreq : k.reqbufs = Reply.ok n) (hn : 2 ≤ n) (halloc : k.calloc ≠ 0)
    (hk : kk < n) (hprev : ∀ i, i < kk → k.mappable i) (hfail : ¬ k.mappable kk)
    (hunmap : ∀ i, ks.munmap i ≠ -1) :
    (init_mmap k d).ret = ERROR_LOCAL ∧
    (init_mmap k d).dev.buffer_count = kk ∧
    (init_mmap k d).dev.frame_buffers = k.calloc ∧
    (init_mmap k d).events.any Event.releases = false ∧
    (∀ i, i < kk → (init_mmap k d).dev.pool[i]? = some ⟨k.mmap i, k.length i⟩) ∧
    (uninit_device ks (init_mmap k d).dev).events
      = (List.range kk).map (fun i => Event.munmap (k.mmap i) (k.length i))
        ++ [Event.free k.calloc] := by
  have hlow : ¬ n < 2 := by omega
  have hl := init_mmap_loop_failure k kk hfail n (pool_allocated k d n)
    (Nat.zero_le _) (by simp only [pool_allocated]; omega)
    (by simp only [pool_allocated, List.length_replicate]; exact hk)
    (fun i _ h => hprev i h)
  obtain ⟨h1, h2, h3, h4, h5⟩ := hl
  have hinit : init_mmap k d = ⟨ERROR_LOCAL,
      (init_mmap_loop k n (pool_allocated k d n)).2.1,
      Event.ioctl d.file_descriptor
          (Ioctl.VIDIOC_REQBUFS (d.device_sets.num_buffers % 2 ^ 32).toNat)
        :: Event.calloc n :: (init_mmap_loop k n (pool_allocated k d n)).2.2⟩ := by
    simp only [pool_allocated] at h1 ⊢
    simp only [init_mmap, hreq, hlow, if_false, if_neg halloc]
    rw [h1]
  have hpool : ∀ i, i < kk → (init_mmap k d).dev.pool[i]? = some ⟨k.mmap i, k.length i⟩ := by
    intro i hi
    rw [hinit]
    simp only
    rw [h5 i hi, if_neg (by simp [pool_allocated])]
  refine ⟨by rw [hinit], by rw [hinit]; exact h2, by rw [hinit]; exact h3, ?_, hpool, ?_⟩
  · rw [hinit]
    simp only [List.any_cons, Event.releases, h4, Bool.or_self]
  · have hcount : (init_mmap k d).dev.buffer_count = kk := by rw [hinit]; exact h2
    have hptr : (init_mmap k d).dev.frame_buffers = k.calloc := by rw [hinit]; exact h3
    simp only [uninit_device, uninit_device_loop_ok ks _ hunmap, hcount, hptr,
      List.range_eq_range']
    congr 1
    apply List.map_congr_left
    intro i hi
    rw [List.mem_range'_1] at hi
    rw [List.getD_eq_getElem?_getD, hpool i (by omega)]
    rfl

/-- C6, as the code has it, for a driver that maps buffer 0 and fails the query of
buffer 1. -/
theorem init_mmap_failure_keeps_mappings_witness :
    (init_mmap driver_querybuf1_fails opened).ret = ERROR_LOCAL ∧
    (init_mmap driver_querybuf1_fails opened).dev.buffer_count = 1 ∧
    (init_mmap driver_querybuf1_fails opened).dev.frame_buffers = driver_querybuf1_fails.calloc ∧
    (init_mmap driver_querybuf1_fails opened).events.any Event.releases = false ∧
    (∀ i, i < 1 → (init_mmap driver_querybuf1_fails opened).dev.pool[i]?
      = some ⟨driver_querybuf1_fails.mmap i, driver_querybuf1_fails.length i⟩) ∧
    (uninit_device stop_ok (init_mmap driver_querybuf1_fails opened).dev).events
      = (List.range 1).map (fun i =>
          Event.munmap (driver_querybuf1_fails.mmap i) (driver_querybuf1_fails.length i))
        ++ [Event.free driver_querybuf1_fails.calloc] :=
  init_mmap_failure_keeps_mappings driver_querybuf1_fails stop_ok opened 2 1 rfl (by decide)
    (by decide) (by decide)
    (fun i hi => by
      have h0 : i = 0 := by omega
      subst h0
      exact ⟨⟨(614400, 0), rfl⟩, by decide⟩)
    (fun h => by
      obtain ⟨⟨v, hv⟩, _⟩ := h
      exact absurd hv (by simp [driver_querybuf1_fails]))
    (fun _ => by simp [stop_ok])

/-- C6 as stated fails: with two buffers granted, buffer 0 mapped and the query of buffer 1
failing, `init_mmap` returns the failure result after the pool request, `calloc`, the query
and mapping of buffer 0 and the failed query, with no `munmap` and no `free`; the mapping of
buffer 0 remains (`buffer_count = 1`, slot 0 holds it) and the pool stays allocated. -/
theorem init_mmap_failure_does_not_unwind :
    (init_mmap driver_querybuf1_fails opened).ret = ERROR_LOCAL ∧
    (init_mmap driver_querybuf1_fails opened).events
      = [Event.ioctl 3 (Ioctl.VIDIOC_REQBUFS 2), Event.calloc 2,
         Event.ioctl 3 (Ioctl.VIDIOC_QUERYBUF 0), Event.mmap 3 614400 0,
         Event.ioctl 3 (Ioctl.VIDIOC_QUERYBUF 1)] ∧
    (init_mmap driver_querybuf1_fails opened).events.any Event.releases = false ∧
    (init_mmap driver_querybuf1_fails opened).dev.buffer_count = 1 ∧
    (init_mmap driver_querybuf1_fails opened).dev.frame_buffers = 4096 ∧
    (init_mmap driver_querybuf1_fails opened).dev.pool = [⟨1048576, 614400⟩, ⟨0, 0⟩] := by
  decide

/-! ## Configuration -/

theorem init_mmap_success (k : ConfigEnv) (d : VideoDevice) (n : Nat)
    (hreq : k.reqbufs = Reply.ok n) (hn : 2 ≤ n) (halloc : k.calloc ≠ 0)
    (hmap : ∀ i, i < n → k.mappable i) :
    (init_mmap k d).ret = SUCCESS_LOCAL ∧ (init_mmap k d).dev.buffer_count = n := by
  have hlow : ¬ n < 2 := by omega
  have hl := init_mmap_loop_success k n (pool_allocated k d n)
    (fun i _ h => hmap i (by simp only [pool_allocated] at h; omega))
  simp only [pool_allocated] at hl
  simp only [init_mmap, hreq, hlow, if_false, if_neg halloc]
  rw [hl.1]
  refine ⟨rfl, ?_⟩
  simp only [hl.2]
  omega

/-- C7, as the code has it: when the capability query (with both capabilities), the format
negotiation, the pool request (at least 2 granted), `calloc` and every query and mapping
succeed, `init_device` returns success if the standard-select ioctl succeeds and the failure
result if it fails, whatever the crop query and the crop set return. -/
theorem init_device_requires_standard (k : ConfigEnv) (d : VideoDevice)
    (cap : v4l2_capability) (n : Nat) (std cropcap s_crop : Reply Unit)
    (hcap : k.querycap = Reply.ok cap)
    (hvc : cap.capabilities &&& V4L2_CAP_VIDEO_CAPTURE ≠ 0)
    (hst : cap.capabilities &&& V4L2_CAP_STREAMING ≠ 0)
    (hfmt : k.s_fmt = Reply.ok ()) (hreq : k.reqbufs = Reply.ok n) (hn : 2 ≤ n)
    (halloc : k.calloc ≠ 0) (hmap : ∀ i, i < n → k.mappable i) :
    (init_device { k with s_std := std, cropcap := cropcap, s_crop := s_crop } d).ret
      = if std.succeeded then SUCCESS_LOCAL else ERROR_LOCAL := by
  have hm := (init_mmap_success { k with s_std := std, cropcap := cropcap, s_crop := s_crop }
    d n hreq hn halloc hmap).1
  simp only [init_device, hcap, hvc, hst, if_false, hfmt]
  cases std with
  | fail e => simp [Reply.succeeded, errnoexit]
  | ok u =>
    simp only [hcap, hfmt] at hm
    simp only [Reply.succeeded, if_true]
    exact hm

/-- C7, as the code has it, for a driver that accepts the standard. -/
theorem init_device_requires_standard_witness :
    (init_device { driver_two_buffers with
        s_std := Reply.ok (), cropcap := Reply.fail EINVAL, s_crop := Reply.fail EINVAL }
      opened).ret
      = if (Reply.ok () : Reply Unit).succeeded then SUCCESS_LOCAL else ERROR_LOCAL :=
  init_device_requires_standard driver_two_buffers opened ⟨['u', 's', 'b', 't', 'v'], 0x04000001⟩
    2 (Reply.ok ()) (Reply.fail EINVAL) (Reply.fail EINVAL) rfl (by decide) (by decide) rfl rfl
    (by decide) (by decide) (fun i _ => ⟨⟨(614400, i * 614400), rfl⟩, by
      simp only [driver_two_buffers, MAP_FAILED]; omega⟩)

/-- C7 as stated fails: two drivers that differ only in the answer to the standard-select
ioctl, every other call succeeding, make `init_device` return success and failure; after
the rejected standard no format is negotiated and no buffer requested. -/
theorem init_device_fails_on_rejected_standard :
    (init_device driver_two_buffers opened).ret = SUCCESS_LOCAL ∧
    (init_device driver_std_rejected opened).ret = ERROR_LOCAL ∧
    (init_device driver_std_rejected opened).events
      = [Event.ioctl 3 Ioctl.VIDIOC_QUERYCAP, Event.ioctl 3 (Ioctl.VIDIOC_S_STD V4L2_STD_NTSC)] ∧
    SUCCESS_LOCAL ≠ ERROR_LOCAL := by
  decide

/-! ## Capture -/

theorem process_capture_loop_timeout (k : CaptureEnv) (d : VideoDevice) (j : Nat) :
    ∀ (fuel n : Nat), j < fuel →
      (∀ i, i < j → k.select (n + i) = ⟨-1, EINTR⟩) → (k.select (n + j)).result = 0 →
      process_capture_loop k fuel n d = ⟨Completion.returned NULL, d,
        List.replicate j (Event.select d.file_descriptor)
          ++ [Event.select d.file_descriptor, Event.sleep]⟩ := by
  induction j with
  | zero =>
    intro fuel n hf _ h0
    obtain ⟨f, rfl⟩ : ∃ f, fuel = f + 1 := ⟨fuel - 1, by omega⟩
    have hne : ¬ ((k.select n).result = -1 ∧ (k.select n).errno = EINTR) := by
      intro h
      rw [Nat.add_zero] at h0
      rw [h0] at h
      exact absurd h.1 (by decide)
    simp only [process_capture_loop, if_neg hne]
    rw [if_pos (by simpa using h0)]
    rfl
  | succ j ih =>
    intro fuel n hf hint h0
    obtain ⟨f, rfl⟩ : ∃ f, fuel = f + 1 := ⟨fuel - 1, by omega⟩
    have hs : k.select n = ⟨-1, EINTR⟩ := by simpa using hint 0 (by omega)
    have hnext := ih f (n + 1) (by omega)
      (fun i hi => by
        have := hint (i + 1) (by omega)
        rwa [show n + (i + 1) = n + 1 + i by omega] at this)
      (by rwa [show n + (j + 1) = n + 1 + j by omega] at h0)
    simp only [process_capture_loop, hs, and_self, if_true, hnext]
    rfl

theorem process_capture_loop_retried (k : CaptureEnv) (d : VideoDevice) (f j : Nat) :
    ∀ n : Nat, (∀ i, i < j → k.retried (n + i)) →
      process_capture_loop k (j + f) n d =
        ⟨(process_capture_loop k f (n + j) d).status, (process_capture_loop k f (n + j) d).dev,
          retry_events k d.file_descriptor n j ++ (process_capture_loop k f (n + j) d).events⟩ := by
  induction j with
  | zero =>
    intro n _
    simp only [retry_events, Nat.zero_add, Nat.add_zero, List.nil_append]
  | succ j ih =>
    intro n h
    have hrest := ih (n + 1) (fun i hi => by
      have := h (i + 1) (by omega)
      rwa [show n + (i + 1) = n + 1 + i by omega] at this)
    rw [show n + 1 + j = n + (j + 1) by omega] at hrest
    rw [show j + 1 + f = (j + f) + 1 by omega]
    have h0 : k.retried n := by simpa using h 0 (by omega)
    rcases h0 with hint | ⟨hni, hr0, hdq⟩
    · have hint2 : (k.select n).result = -1 ∧ (k.select n).errno = EINTR := hint
      simp only [process_capture_loop, if_pos hint2, hrest, retry_events, if_pos hint,
        List.cons_append, List.nil_append]
    · have hni2 : ¬ ((k.select n).result = -1 ∧ (k.select n).errno = EINTR) := hni
      have h01 : ¬ ((0 : Int) = 1) := by decide
      simp only [process_capture_loop, if_neg hni2, if_neg hr0, read_frame, hdq, if_true,
        if_neg h01, hrest, retry_events, if_neg hni, List.cons_append, List.nil_append]

theorem process_capture_loop_rejected (k : CaptureEnv) (d : VideoDevice) (f n : Nat)
    (h : k.rejected n) :
    process_capture_loop k (f + 1) n d = ⟨Completion.returned
        (d.frame_buffers + d.curBufferIndex * sizeof_CaptureBuffer), d,
      [Event.select d.file_descriptor, Event.ioctl d.file_descriptor Ioctl.VIDIOC_DQBUF]⟩ := by
  obtain ⟨hni, hr0, e, hdq, he⟩ := h
  have hni2 : ¬ ((k.select n).result = -1 ∧ (k.select n).errno = EINTR) := hni
  simp only [process_capture_loop, if_neg hni2, if_neg hr0, read_frame, hdq, if_neg he, if_true]

theorem process_capture_loop_timed_out (k : CaptureEnv) (d : VideoDevice) (f n : Nat)
    (h : (k.select n).result = 0) :
    process_capture_loop k (f + 1) n d = ⟨Completion.returned NULL, d,
      [Event.select d.file_descriptor, Event.sleep]⟩ := by
  have hni : ¬ ((k.select n).result = -1 ∧ (k.select n).errno = EINTR) := by
    intro hc
    rw [h] at hc
    exact absurd hc.1 (by decide)
  simp only [process_capture_loop, if_neg hni, if_pos h]

theorem init_mmap_loop_frame (k : ConfigEnv) (todo : Nat) (d : VideoDevice) :
    (init_mmap_loop k todo d).2.1.frame_buffers = d.frame_buffers ∧
    (init_mmap_loop k todo d).2.1.curBufferIndex = d.curBufferIndex ∧
    (init_mmap_loop k todo d).2.1.file_descriptor = d.file_descriptor ∧
    ((init_mmap_loop k todo d).1 = none ∨ (init_mmap_loop k todo d).1 = some ERROR_LOCAL) := by
  induction todo generalizing d with
  | zero => simp [init_mmap_loop]
  | succ t ih =>
    cases hq : k.querybuf d.buffer_count with
    | fail e =>
      simp only [init_mmap_loop, hq]
      exact ⟨trivial, trivial, trivial, Or.inr rfl⟩
    | ok v =>
      obtain ⟨len, off⟩ := v
      by_cases hm : k.mmap d.buffer_count = MAP_FAILED
      · simp only [init_mmap_loop, hq, if_pos hm]
        exact ⟨trivial, trivial, trivial, Or.inr rfl⟩
      · simp only [init_mmap_loop, hq, if_neg hm]
        exact ih _

theorem init_mmap_success_state (k : ConfigEnv) (d : VideoDevice)
    (h : (init_mmap k d).ret = SUCCESS_LOCAL) :
    (init_mmap k d).dev.frame_buffers = k.calloc ∧ k.calloc ≠ 0 ∧
    (init_mmap k d).dev.curBufferIndex = d.curBufferIndex ∧
    (init_mmap k d).dev.file_descriptor = d.file_descriptor := by
  have hE : ERROR_LOCAL ≠ SUCCESS_LOCAL := by decide
  unfold init_mmap at h ⊢
  cases hreq : k.reqbufs with
  | fail e =>
    rw [hreq] at h
    simp only at h
    split at h <;> exact absurd h hE
  | ok n =>
    rw [hreq] at h
    simp only at h ⊢
    by_cases hn : n < 2
    · rw [if_pos hn] at h
      exact absurd h hE
    · rw [if_neg hn] at h ⊢
      by_cases hc : k.calloc = 0
      · rw [if_pos hc] at h
        exact absurd h hE
      · rw [if_neg hc] at h ⊢
        have hl := init_mmap_loop_frame k n
          { d with frame_buffers := k.calloc, pool := if k.calloc = 0 then d.pool
              else List.replicate n ⟨0, 0⟩, buffer_count := 0 }
        obtain ⟨h1, h2, h3, h4 | h4⟩ := hl
        · rw [h4]
          exact ⟨h1, hc, h2, h3⟩
        · rw [h4] at h
          exact absurd h hE

theorem init_device_success_state (k : ConfigEnv) (d : VideoDevice)
    (h : (init_device k d).ret = SUCCESS_LOCAL) :
    (init_device k d).dev.frame_buffers = k.calloc ∧ k.calloc ≠ 0 ∧
    (init_device k d).dev.curBufferIndex = d.curBufferIndex ∧
    (init_device k d).dev.file_descriptor = d.file_descriptor := by
  have hE : ERROR_LOCAL ≠ SUCCESS_LOCAL := by decide
  unfold init_device at h ⊢
  cases hq : k.querycap with
  | fail e =>
    rw [hq] at h
    simp only at h
    split at h <;> exact absurd h hE
  | ok cap =>
    rw [hq] at h
    simp only at h ⊢
    by_cases h1 : cap.capabilities &&& V4L2_CAP_VIDEO_CAPTURE = 0
    · rw [if_pos h1] at h
      exact absurd h hE
    · rw [if_neg h1] at h ⊢
      by_cases h2 : cap.capabilities &&& V4L2_CAP_STREAMING = 0
      · rw [if_pos h2] at h
        exact absurd h hE
      · rw [if_neg h2] at h ⊢
        cases hs : k.s_std with
        | fail e =>
          rw [hs] at h
          exact absurd h hE
        | ok u =>
          rw [hs] at h
          simp only at h ⊢
          cases hf : k.s_fmt with
          | fail e =>
            rw [hf] at h
            exact absurd h hE
          | ok u2 =>
            rw [hf] at h
            simp only at h ⊢
            exact init_mmap_success_state k d h

/-- C5, as the code has it: with `file_descriptor == -1`, `process_capture` returns NULL
without any readiness wait or dequeue, whatever the driver would answer. With an open handle
it returns NULL when the readiness wait, after `j` interrupted turns, times out, and no
dequeue is issued; it also returns NULL when the wait times out after `j` retried turns
of either kind (interrupted, or dequeue reporting `EAGAIN`). When, after `j` retried turns,
the wait is neither interrupted nor timed out and the dequeue fails with an errno other than
`EAGAIN`, it returns `&frame_buffers[curBufferIndex]`, streaming or not; on every manager
that was constructed, opened and configured with success and never started, that pointer
is the pool returned by `calloc`, which is not NULL. -/
theorem process_capture_not_streaming (k : CaptureEnv) (fuel : Nat) (d : VideoDevice) :
    (d.file_descriptor = -1 →
      process_capture k fuel d = ⟨Completion.returned NULL, d, []⟩) ∧
    (∀ j, d.file_descriptor ≠ -1 → j < fuel →
      (∀ i, i < j → k.select i = ⟨-1, EINTR⟩) → (k.select j).result = 0 →
      (process_capture k fuel d).status = Completion.returned NULL ∧
      (process_capture k fuel d).dev = d ∧
      Event.ioctl d.file_descriptor Ioctl.VIDIOC_DQBUF ∉ (process_capture k fuel d).events) ∧
    (∀ j, d.file_descriptor ≠ -1 → j < fuel →
      (∀ i, i < j → k.retried i) → (k.select j).result = 0 →
      process_capture k fuel d = ⟨Completion.returned NULL, d,
        retry_events k d.file_descriptor 0 j
          ++ [Event.select d.file_descriptor, Event.sleep]⟩) ∧
    (∀ j, d.file_descriptor ≠ -1 → j < fuel →
      (∀ i, i < j → k.retried i) → k.rejected j →
      process_capture k fuel d = ⟨Completion.returned
          (d.frame_buffers + d.curBufferIndex * sizeof_CaptureBuffer), d,
        retry_events k d.file_descriptor 0 j
          ++ [Event.select d.file_descriptor,
              Event.ioctl d.file_descriptor Ioctl.VIDIOC_DQBUF]⟩) ∧
    (∀ j devSets o kc, d = configure devSets o kc →
      (open_device o (VideoDevice.VideoDevice devSets)).ret = SUCCESS_LOCAL →
      (init_device kc (open_device o (VideoDevice.VideoDevice devSets)).dev).ret
        = SUCCESS_LOCAL →
      j < fuel → (∀ i, i < j → k.retried i) → k.rejected j →
      (process_capture k fuel d).status = Completion.returned kc.calloc ∧
      kc.calloc ≠ NULL) := by
  have hrej : ∀ j, d.file_descriptor ≠ -1 → j < fuel →
      (∀ i, i < j → k.retried i) → k.rejected j →
      process_capture k fuel d = ⟨Completion.returned
          (d.frame_buffers + d.curBufferIndex * sizeof_CaptureBuffer), d,
        retry_events k d.file_descriptor 0 j
          ++ [Event.select d.file_descriptor,
              Event.ioctl d.file_descriptor Ioctl.VIDIOC_DQBUF]⟩ := by
    intro j hfd hj hret hr
    obtain ⟨f, rfl⟩ : ∃ f, fuel = j + (f + 1) := ⟨fuel - j - 1, by omega⟩
    have hskip := process_capture_loop_retried k d (f + 1) j 0
      (fun i hi => by simpa using hret i hi)
    rw [Nat.zero_add] at hskip
    simp only [process_capture, if_neg hfd, hskip, process_capture_loop_rejected k d f j hr]
  refine ⟨?_, ?_, ?_, hrej, ?_⟩
  · intro h
    simp only [process_capture, h, if_true]
  · intro j hfd hj hint h0
    have hl := process_capture_loop_timeout k d j fuel 0 hj
      (fun i hi => by simpa using hint i hi) (by simpa using h0)
    simp only [process_capture, if_neg hfd, hl]
    refine ⟨trivial, trivial, ?_⟩
    simp [List.mem_replicate]
  · intro j hfd hj hret h0
    obtain ⟨f, rfl⟩ : ∃ f, fuel = j + (f + 1) := ⟨fuel - j - 1, by omega⟩
    have hskip := process_capture_loop_retried k d (f + 1) j 0
      (fun i hi => by simpa using hret i hi)
    rw [Nat.zero_add] at hskip
    simp only [process_capture, if_neg hfd, hskip, process_capture_loop_timed_out k d f j h0]
  · intro j devSets o kc hd hopen hinit hj hret hr
    have hst := init_device_success_state kc _ hinit
    have hfd0 : (open_device o (VideoDevice.VideoDevice devSets)).dev.file_descriptor ≠ -1 := by
      simp only [open_device] at hopen
      have hE : ERROR_LOCAL ≠ SUCCESS_LOCAL := by decide
      split at hopen
      · exact absurd hopen hE
      · rename_i hne
        rw [open_device_dev]
        exact hne
    have hcur : (open_device o (VideoDevice.VideoDevice devSets)).dev.curBufferIndex = 0 := by
      rw [open_device_dev]
      rfl
    have hfd : d.file_descriptor ≠ -1 := by
      rw [hd, configure, hst.2.2.2]
      exact hfd0
    rw [hrej j hfd hj hret hr]
    refine ⟨?_, hst.2.1⟩
    simp only
    rw [hd, configure, hst.1, hst.2.2.1, hcur]
    simp

/-- C5, as the code has it, for a manager that was never opened and for a configured
manager whose wait times out at once, whose wait times out after two retried turns and
whose dequeue is rejected after two retried turns. -/
theorem process_capture_not_streaming_witness :
    process_capture retried_then_einval 3 (VideoDevice.VideoDevice settings640)
      = ⟨Completion.returned NULL, VideoDevice.VideoDevice settings640, []⟩ ∧
    (process_capture wait_times_out 1 configured).status = Completion.returned NULL ∧
    process_capture retried_then_timeout 3 configured
      = ⟨Completion.returned NULL, configured,
          retry_events retried_then_timeout configured.file_descriptor 0 2
            ++ [Event.select configured.file_descriptor, Event.sleep]⟩ ∧
    process_capture retried_then_einval 3 configured
      = ⟨Completion.returned
          (configured.frame_buffers + configured.curBufferIndex * sizeof_CaptureBuffer),
        configured,
        retry_events retried_then_einval configured.file_descriptor 0 2
          ++ [Event.select configured.file_descriptor,
              Event.ioctl configured.file_descriptor Ioctl.VIDIOC_DQBUF]⟩ ∧
    ((process_capture retried_then_einval 3 configured).status
        = Completion.returned driver_two_buffers.calloc ∧
      driver_two_buffers.calloc ≠ NULL) :=
  have hret1 : ∀ i, i < 2 → retried_then_einval.retried i := fun i hi => by
    have h : i = 0 ∨ i = 1 := by omega
    rcases h with h | h <;> subst h
    · exact Or.inl (by decide)
    · exact Or.inr (by decide)
  have hret2 : ∀ i, i < 2 → retried_then_timeout.retried i := fun i hi => by
    have h : i = 0 ∨ i = 1 := by omega
    rcases h with h | h <;> subst h
    · exact Or.inl (by decide)
    · exact Or.inr (by decide)
  have hrej : retried_then_einval.rejected 2 :=
    ⟨by decide, by decide, EINVAL, rfl, by decide⟩
  ⟨(process_capture_not_streaming retried_then_einval 3
      (VideoDevice.VideoDevice settings640)).1 rfl,
   ((process_capture_not_streaming wait_times_out 1 configured).2.1 0 (by decide) (by decide)
      (fun i hi => absurd hi (Nat.not_lt_zero i)) rfl).1,
   (process_capture_not_streaming retried_then_timeout 3 configured).2.2.1 2 (by decide)
      (by decide) hret2 rfl,
   (process_capture_not_streaming retried_then_einval 3 configured).2.2.2.1 2 (by decide)
      (by decide) hret1 hrej,
   (process_capture_not_streaming retried_then_einval 3 configured).2.2.2.2 2 settings640
      node_ok driver_two_buffers rfl (by decide) (by decide) (by decide) hret1 hrej⟩

/-- C5 as stated fails: a manager that was opened and configured but never started, whose
handle is reported ready and whose dequeue is rejected with `EINVAL`, gets from
`process_capture` the pointer `&frame_buffers[0] = 4096`, which is not NULL. -/
theorem process_capture_returns_frame_when_not_streaming :
    configured.file_descriptor = 3 ∧ configured.buffer_count = 2 ∧
    process_capture ready_dequeue_einval 1 configured
      = ⟨Completion.returned 4096, configured,
          [Event.select 3, Event.ioctl 3 Ioctl.VIDIOC_DQBUF]⟩ ∧
    (4096 : Int) ≠ NULL := by
  decide

/-! ## Teardown -/

/-- C4: `stop_device` on a manager that was opened as descriptor 3 and configured with two
buffers issues stream-off, two unmaps, `free` and `close`, and leaves every member as it
was: `file_descriptor` is still 3, not -1, `buffer_count` still 2 and `frame_buffers` still
the freed pointer. A second `stop_device` issues the same five calls again on the released
resources. On a manager that was never opened both calls issue only `free(nullptr)`. -/
theorem stop_device_keeps_handle_and_repeats :
    (stop_device stop_ok configured).dev = configured ∧
    (stop_device stop_ok configured).dev.file_descriptor = 3 ∧
    (stop_device stop_ok configured).dev.buffer_count = 2 ∧
    (stop_device stop_ok configured).dev.frame_buffers = 4096 ∧
    (stop_device stop_ok configured).events
      = [Event.ioctl 3 Ioctl.VIDIOC_STREAMOFF, Event.munmap 1048576 614400,
         Event.munmap 2097152 614400, Event.free 4096, Event.close 3] ∧
    (stop_device stop_after_close (stop_device stop_ok configured).dev).events
      = [Event.ioctl 3 Ioctl.VIDIOC_STREAMOFF, Event.munmap 1048576 614400,
         Event.munmap 2097152 614400, Event.free 4096, Event.close 3] ∧
    (stop_device stop_ok (VideoDevice.VideoDevice settings640)).events = [Event.free 0] := by
  decide

end RearViewCamera
